import Mathlib

/-!
Verification development for the cloud-sync engine in
`src/hooks/useCloudSync.ts` of the year-planner repository.

The engine is a React hook.  We embed it shallowly: the hook closures
become pure functions over an explicit `SyncConfig` record holding the
refs, the React state, the localStorage cell and a log of the I/O calls
issued to the Supabase store; the asynchronous operations become
functions parameterised by the result the store returns; the event-loop
interleavings the claims speak about become an explicit `Event` step
relation.
-/

/-- Per-day annotation payload (the `DateCellData` record imported from
`src/utils/colors`; the sync engine treats it opaquely, and the test
suite builds it as a record with a single color tag). -/
structure DateCellData where
  color : String
deriving DecidableEq, Repr

/-- Document State: the `Map<string, DateCellData>` from date-key to
annotation, modelled as its entry list (a JS Map iterates its distinct
keys in insertion order; `size = 0` corresponds to the empty list, and
the engine only ever replaces the map wholesale). -/
abbrev DocState := List (String × DateCellData)

/-- Constant `SYNC_TS_KEY` (useCloudSync.ts line 8): the localStorage key
under which the sync timestamp is persisted. -/
def SYNC_TS_KEY : String := "calendar_sync_ts"

/-- Constant `DEBOUNCE_MS` (line 9): the debounce quiet period in
milliseconds.  In the step relation below, a mutation arriving within the
window is modelled by the absence of a `timerFire` event between two
`mutate` events. -/
def DEBOUNCE_MS : Nat := 500

/-- The values of the `SyncStatus` union type (line 6):
`"idle" | "pushing" | "pulling" | "error" | "offline"`. -/
def syncStatusValues : List String :=
  ["idle", "pushing", "pulling", "error", "offline"]

/-! ## JS string and timestamp primitives

The pull compares timestamps with the JS string operator `>` (line 117),
which is lexicographic by UTF-16 code units; the realtime handler
compares them as instants via `new Date(s).getTime()` (line 168).  We
model both. -/

/-- Lexicographic comparison of character lists by code point, the JS
string `<` (code units and code points agree on the characters appearing
in ISO timestamps). -/
def charListLt : List Char → List Char → Bool
  | _, [] => false
  | [], _ :: _ => true
  | a :: as, b :: bs =>
      if a.toNat < b.toNat then true
      else if b.toNat < a.toNat then false
      else charListLt as bs

/-- JS string comparison `a < b`. -/
def jsStrLt (a b : String) : Bool := charListLt a.toList b.toList

/-- Reads a fixed-width decimal number from the front of a character
list. -/
def parseFixedNat (cs : List Char) (n : Nat) : Option (Nat × List Char) :=
  let pre := cs.take n
  if pre.length = n ∧ pre.all Char.isDigit then
    some (pre.foldl (fun a c => a * 10 + (c.toNat - 48)) 0, cs.drop n)
  else none

/-- Consumes one expected character. -/
def expectChar (c : Char) : List Char → Option (List Char)
  | x :: rest => if x = c then some rest else none
  | [] => none

/-- Milliseconds denoted by a fractional-second digit string: JS `Date`
keeps millisecond precision, so the first three digits count, padded
with zeros on the right. -/
def msOfFraction (ds : List Char) : Nat :=
  ((ds ++ ['0', '0', '0']).take 3).foldl (fun a c => a * 10 + (c.toNat - 48)) 0

/-- Days from the civil epoch 1970-01-01 for a Gregorian date
(the standard civil-from-days inversion; all divisions act on
non-negative operands after the era adjustment). -/
def daysFromCivil (y : Int) (m : Nat) (d : Nat) : Int :=
  let yAdj : Int := if m ≤ 2 then y - 1 else y
  let era : Int := (if 0 ≤ yAdj then yAdj else yAdj - 399) / 400
  let yoe : Int := yAdj - era * 400
  let doy : Int :=
    (153 * (Int.ofNat m + (if 2 < m then -3 else 9)) + 2) / 5 + Int.ofNat d - 1
  let doe : Int := yoe * 365 + yoe / 4 - yoe / 100 + doy
  era * 146097 + doe - 719468

/-- Splits an optional fractional-second part off the front of the
remaining characters, returning the millisecond value it denotes. -/
def splitFraction : List Char → Nat × List Char
  | '.' :: rest => (msOfFraction (rest.takeWhile Char.isDigit), rest.dropWhile Char.isDigit)
  | other => (0, other)

/-- Parses the `HH:MM` body of a numeric zone offset, in minutes. -/
def parseZoneHM (rest : List Char) : Option Nat := do
  let (oh, r) ← parseFixedNat rest 2
  let r ← expectChar ':' r
  let (om, r) ← parseFixedNat r 2
  if r = [] then some (oh * 60 + om) else none

/-- Parses the zone suffix of an ISO timestamp: `Z`, `+HH:MM` or
`-HH:MM`, as an offset in minutes east of UTC. -/
def parseZoneOffsetMin : List Char → Option Int
  | ['Z'] => some 0
  | '+' :: rest => (parseZoneHM rest).map (fun n => Int.ofNat n)
  | '-' :: rest => (parseZoneHM rest).map (fun n => -(Int.ofNat n))
  | _ => none

/-- The calendar fields read off an ISO date-time string. -/
structure IsoFields where
  y : Nat
  mo : Nat
  d : Nat
  h : Nat
  mi : Nat
  sec : Nat
  ms : Nat
  offMin : Int
deriving DecidableEq, Repr

/-- Parses the `YYYY-MM-DD` date prefix. -/
def parseYMD (cs : List Char) : Option (Nat × Nat × Nat × List Char) := do
  let (y, cs) ← parseFixedNat cs 4
  let cs ← expectChar '-' cs
  let (mo, cs) ← parseFixedNat cs 2
  let cs ← expectChar '-' cs
  let (d, cs) ← parseFixedNat cs 2
  some (y, mo, d, cs)

/-- Parses the `HH:MM:SS` time-of-day part. -/
def parseHMS (cs : List Char) : Option (Nat × Nat × Nat × List Char) := do
  let (h, cs) ← parseFixedNat cs 2
  let cs ← expectChar ':' cs
  let (mi, cs) ← parseFixedNat cs 2
  let cs ← expectChar ':' cs
  let (sec, cs) ← parseFixedNat cs 2
  some (h, mi, sec, cs)

/-- Parses `YYYY-MM-DDTHH:MM:SS`, an optional fractional-second part and
a zone suffix into calendar fields. -/
def parseIsoFields (s : String) : Option IsoFields := do
  let (y, mo, d, cs) ← parseYMD s.toList
  let cs ← expectChar 'T' cs
  let (h, mi, sec, cs) ← parseHMS cs
  let (ms, cs) := splitFraction cs
  let offMin ← parseZoneOffsetMin cs
  if mo = 0 ∨ 12 < mo ∨ d = 0 ∨ 31 < d ∨ 24 < h ∨ 59 < mi ∨ 59 < sec then none
  else some ⟨y, mo, d, h, mi, sec, ms, offMin⟩

/-- Epoch milliseconds of an ISO-8601 date-time string, as JS
`new Date(s).getTime()` computes it for the timestamp shapes the engine
sees (the device writes the `toISOString` Z-form, Supabase returns the
`+00:00` form).  `none` models the NaN result of an unparseable
string. -/
def jsDateGetTime (s : String) : Option Int :=
  (parseIsoFields s).map (fun f =>
    daysFromCivil (Int.ofNat f.y) f.mo f.d * 86400000
      + Int.ofNat f.h * 3600000 + Int.ofNat f.mi * 60000
      + Int.ofNat f.sec * 1000 + Int.ofNat f.ms - f.offMin * 60000)

/-! ## The sync engine state

The hook closes over refs, one `useState`, the localStorage cell and the
Supabase client.  `SyncConfig` gathers them, together with a log of the
I/O calls issued to the store, oldest first. -/

/-- The row shape sent by `pushToCloud` to
`supabase.from("calendar_states").upsert` (lines 63-71). -/
structure Upsert where
  user_id : String
  year : Int
  data : DocState
  updated_at : String
deriving DecidableEq, Repr

/-- An I/O call issued to the remote store: the `select ... maybeSingle`
query of a pull, the `upsert` of a push, or a realtime channel
subscription. -/
inductive IOCall where
  | fetch (userId : String) (year : Int)
  | upsert (u : Upsert)
  | subscribe (channel : String)
deriving DecidableEq, Repr

/-- The full observable state of one mounted `useCloudSync` hook. -/
structure SyncConfig where
  /-- Whether the Supabase client was configured (`supabase !== null`). -/
  supabaseAvailable : Bool
  /-- The authenticated user id from `useAuth()`, `none` when signed out. -/
  user : Option String
  /-- The `year` prop: the partition key. -/
  year : Int
  /-- The `dateCells` map (`dateCellsRef.current` always mirrors it). -/
  dateCells : DocState
  /-- The localStorage cell under `SYNC_TS_KEY`; `none` when absent or
  when reads fail (`getSyncTimestamp` returns null in both cases). -/
  syncTs : Option String
  /-- The `syncStatus` state, one of `syncStatusValues`. -/
  syncStatus : String
  /-- Ref `isPushingRef`. -/
  isPushing : Bool
  /-- Ref `isFromRealtimeRef`. -/
  isFromRealtime : Bool
  /-- Ref `initialPullDoneRef`. -/
  initialPullDone : Bool
  /-- Whether a scheduled, not yet fired debounce timer exists
  (`debounceTimerRef` holding a live handle). -/
  timerPending : Bool
  /-- Ref `channelIdRef`. -/
  channelId : Nat
  /-- Log of I/O calls issued to the store, oldest first. -/
  calls : List IOCall
deriving DecidableEq, Repr

/-- Function `getSyncTimestamp` (lines 11-17): reads the persisted sync
timestamp; a missing key and a storage read failure both yield null. -/
def getSyncTimestamp (c : SyncConfig) : Option String := c.syncTs

/-- Function `setSyncTimestamp` (lines 19-25): persists the sync
timestamp (a storage write failure is caught and logged and leaves the
cell unchanged; the claims under verification are all about the
successful-write behaviour, which is what we model). -/
def setSyncTimestamp (c : SyncConfig) (ts : String) : SyncConfig :=
  { c with syncTs := some ts }

/-- Expression `isEnabled` (line 52): `supabase !== null && user !== null`. -/
def isEnabled (c : SyncConfig) : Bool := c.supabaseAvailable && c.user.isSome

/-- Result of the awaited `upsert` call: the code only inspects the
`error` field of the response (line 73); no timestamp is reported back
by the store for a push. -/
inductive UpsertResult where
  | ok
  | err
deriving DecidableEq, Repr

/-- Result of the awaited `select ... maybeSingle` call of a pull:
a transport error, an absent row (`data === null`), or a found row
carrying the stored payload and its `updated_at`. -/
inductive FetchResult where
  | failure
  | absent
  | found (data : DocState) (updatedAt : String)
deriving DecidableEq, Repr

/-- Function `pushToCloud` (lines 54-86), run to completion with the
store answering `res`.  `now` is the value of the locally generated
`new Date().toISOString()` at line 60; note that the upsert sends it as
the row `updated_at` and, on success, line 77 persists this same local
value as the sync timestamp.  The function does not inspect
`dateCells`: there is no emptiness guard on this path. -/
def pushToCloud (c : SyncConfig) (now : String) (res : UpsertResult) : SyncConfig :=
  match c.user with
  | none => c
  | some uid =>
    if c.supabaseAvailable then
      -- isPushingRef := true; setSyncStatus("pushing"); serialize and upsert.
      let c1 := { c with calls := c.calls ++ [IOCall.upsert ⟨uid, c.year, c.dateCells, now⟩] }
      -- After the await: on error set status "error", else persist `now`
      -- and go "idle"; finally isPushingRef := false.
      match res with
      | .err => { c1 with syncStatus := "error", isPushing := false }
      | .ok => { setSyncTimestamp c1 now with syncStatus := "idle", isPushing := false }
    else c

/-- The application condition of a pull (line 117):
`!localTs || cloudTs > localTs || dateCellsRef.current.size === 0`.
JS compares the two timestamp strings lexicographically here. -/
def pullApplies (c : SyncConfig) (cloudTs : String) : Bool :=
  match getSyncTimestamp c with
  | none => true
  | some localTs => jsStrLt localTs cloudTs || c.dateCells.length = 0

/-- Function `pullFromCloud` (lines 88-130), run to completion with the
store answering `res`.  Returns the new configuration together with
whether the fetched document was applied to Document State. -/
def pullFromCloudRun (c : SyncConfig) (res : FetchResult) : SyncConfig × Bool :=
  match c.user with
  | none => (c, false)
  | some uid =>
    if c.supabaseAvailable then
      -- setSyncStatus("pulling"); issue the select query.
      let c1 := { c with calls := c.calls ++ [IOCall.fetch uid c.year] }
      match res with
      | .failure => ({ c1 with syncStatus := "error" }, false)
      | .absent => ({ c1 with syncStatus := "idle" }, false)
      | .found cloudData cloudTs =>
        -- Only apply cloud data if it is non-empty (line 111).
        if cloudData.length ≠ 0 then
          if pullApplies c1 cloudTs then
            ({ setSyncTimestamp c1 cloudTs with
                dateCells := cloudData, syncStatus := "idle" }, true)
          else ({ c1 with syncStatus := "idle" }, false)
        else ({ c1 with syncStatus := "idle" }, false)
    else (c, false)

/-- Function `pullFromCloud` viewed as a plain state transformer. -/
def pullFromCloud (c : SyncConfig) (res : FetchResult) : SyncConfig :=
  (pullFromCloudRun c res).1

/-- One run of the auto-push effect (lines 186-212) on the current
configuration.  React runs the cleanup of the previous effect run first;
the only cleanup this effect ever registers clears the debounce timer,
and clearing an absent or already-fired timer is a no-op, so the run
begins by cancelling any pending timer.  Then the guards: enabled,
initial pull done, no push in flight, the remote-origin flag (consumed
when set), and the empty-state guard (line 197), before scheduling the
debounced push. -/
def autoPushEffectRun (c : SyncConfig) : SyncConfig :=
  let c := { c with timerPending := false }
  if ¬ isEnabled c then c
  else if ¬ c.initialPullDone then c
  else if c.isPushing then c
  else if c.isFromRealtime then { c with isFromRealtime := false }
  else if c.dateCells.length = 0 then c
  else { c with timerPending := true }

/-- The `payload.new` row the realtime callback receives (line 162). -/
structure RealtimeRow where
  year : Int
  data : DocState
  updated_at : String
deriving DecidableEq, Repr

/-- The echo check of the realtime handler (lines 167-168): with a
recorded sync timestamp, compare the notification timestamp and the
recorded one as instants via `new Date(x).getTime()`; JS strict equality
on two NaN results (unparseable strings) is false, and with no recorded
timestamp the check is skipped. -/
def echoMatch (localTs : Option String) (rowTs : String) : Bool :=
  match localTs with
  | none => false
  | some l =>
    match jsDateGetTime rowTs, jsDateGetTime l with
    | some a, some b => a = b
    | _, _ => false

/-- The realtime callback body (lines 161-176), returning the new
configuration and whether the payload was applied via `setDateCells`. -/
def realtimeHandler (c : SyncConfig) (row : RealtimeRow) : SyncConfig × Bool :=
  if row.year ≠ c.year then (c, false)
  else if echoMatch (getSyncTimestamp c) row.updated_at then (c, false)
  else if row.data.length = 0 then (c, false)
  else
    (setSyncTimestamp { c with isFromRealtime := true, dateCells := row.data }
       row.updated_at, true)

/-- The realtime subscription effect (lines 147-183): when enabled,
increment the channel epoch and subscribe under the suffixed channel
name; otherwise do nothing. -/
def subscribeEffectRun (c : SyncConfig) : SyncConfig :=
  if isEnabled c then
    let id := c.channelId + 1
    { c with channelId := id,
             calls := c.calls ++
               [IOCall.subscribe ("calendar-sync-" ++ toString c.year ++ "-" ++ toString id)] }
  else c

/-! ## The event-loop step relation

The claims quantify over interleavings of the event loop.  Each `Event`
is one atomic (synchronous-to-completion) unit of work, carrying the
result the store answers where the source awaits one.  A mutation
arriving within the debounce window of the previous one is modelled by
the absence of a `timerFire` event in between; a mutation arriving
before the initial pull resolves is modelled by a `mutate` step from a
configuration where `initialPullDone` is still false. -/

inductive Event where
  /-- The hosting UI sets `dateCells` (a local edit re-rendering the
  hook); the auto-push effect re-runs on the new value. -/
  | mutate (cells : DocState)
  /-- The debounce timer elapses and the scheduled `pushToCloud` runs
  with local clock value `now` and store answer `res`. -/
  | timerFire (now : String) (res : UpsertResult)
  /-- A realtime change notification is delivered to the subscribed
  callback; if it applies the payload, the resulting re-render re-runs
  the auto-push effect. -/
  | notify (row : RealtimeRow)
  /-- The mount/year-change effect (lines 133-140): reset
  `initialPullDone`, pull with store answer `res`, then set it in the
  `then` continuation (the pull never rejects, so this runs on failure
  results too). -/
  | mountPull (res : FetchResult)
  /-- The hosting UI invokes the returned `pullFromCloud` directly. -/
  | manualPull (res : FetchResult)
  /-- The hosting UI invokes the returned `pushToCloud` directly with
  local clock value `now`. -/
  | manualPush (now : String) (res : UpsertResult)
  /-- The realtime subscription effect runs (mount or re-mount). -/
  | subscribeEffect
deriving DecidableEq, Repr

/-- One atomic unit of event-loop work. -/
def step (c : SyncConfig) (e : Event) : SyncConfig :=
  match e with
  | .mutate cells => autoPushEffectRun { c with dateCells := cells }
  | .timerFire now res =>
    if c.timerPending then pushToCloud { c with timerPending := false } now res
    else c
  | .notify row =>
    let p := realtimeHandler c row
    -- An applied payload re-renders the hook with the new `dateCells`,
    -- re-running the auto-push effect (which consumes the
    -- remote-origin flag).
    if p.2 then autoPushEffectRun p.1 else p.1
  | .mountPull res =>
    if isEnabled c then
      let p := pullFromCloudRun { c with initialPullDone := false } res
      -- A pull that applied cloud data re-renders the hook; the
      -- auto-push effect re-runs while `initialPullDone` is still
      -- false (it is set only in the `then` continuation afterwards),
      -- so that run only cancels any pending timer.
      let c1 := if p.2 then autoPushEffectRun p.1 else p.1
      { c1 with initialPullDone := true }
    else c
  | .manualPull res =>
    let p := pullFromCloudRun c res
    if p.2 then autoPushEffectRun p.1 else p.1
  | .manualPush now res => pushToCloud c now res
  | .subscribeEffect => subscribeEffectRun c

/-- Folding a list of events through `step`, oldest first. -/
def steps (c : SyncConfig) (es : List Event) : SyncConfig :=
  es.foldl step c

/-- The configuration of a freshly mounted hook: refs at their `useRef`
initial values, status at its `useState` initial value `"idle"`, no
event-loop work done yet. -/
def initialConfig (supabaseAvailable : Bool) (user : Option String) (year : Int)
    (dateCells : DocState) (storedTs : Option String) : SyncConfig :=
  { supabaseAvailable := supabaseAvailable
    user := user
    year := year
    dateCells := dateCells
    syncTs := storedTs
    syncStatus := "idle"
    isPushing := false
    isFromRealtime := false
    initialPullDone := false
    timerPending := false
    channelId := 0
    calls := [] }

/-- Discriminates the explicit-push event: the auto-push claims quantify
over event sequences that contain no direct `pushToCloud` invocation. -/
def isManualPushEvent : Event → Bool
  | .manualPush _ _ => true
  | _ => false

/-- Every upsert recorded in an I/O log carries a non-empty payload. -/
def upsertsNonempty (l : List IOCall) : Prop :=
  ∀ u : Upsert, IOCall.upsert u ∈ l → u.data ≠ []

/-- The steady-state preconditions of the debounced auto-push: sync is
enabled, the initial pull has completed, no push is in flight, and the
pending state change is not remote-originated. -/
def BurstReady (c : SyncConfig) : Prop :=
  isEnabled c = true ∧ c.initialPullDone = true ∧
  c.isPushing = false ∧ c.isFromRealtime = false

/-! ## Basic lemmas about the operations -/

lemma autoPushEffectRun_fields (c : SyncConfig) :
    (autoPushEffectRun c).dateCells = c.dateCells ∧
    (autoPushEffectRun c).syncTs = c.syncTs ∧
    (autoPushEffectRun c).calls = c.calls ∧
    (autoPushEffectRun c).user = c.user ∧
    (autoPushEffectRun c).year = c.year ∧
    (autoPushEffectRun c).supabaseAvailable = c.supabaseAvailable ∧
    (autoPushEffectRun c).syncStatus = c.syncStatus ∧
    (autoPushEffectRun c).initialPullDone = c.initialPullDone ∧
    (autoPushEffectRun c).isPushing = c.isPushing := by
  unfold autoPushEffectRun
  dsimp only
  split_ifs <;> simp

lemma autoPushEffectRun_timer_sound (c : SyncConfig)
    (h : (autoPushEffectRun c).timerPending = true) : c.dateCells.length ≠ 0 := by
  unfold autoPushEffectRun at h
  dsimp only at h
  split_ifs at h
  all_goals simp_all

lemma autoPushEffectRun_disabled (c : SyncConfig) (h : isEnabled c = false) :
    autoPushEffectRun c = { c with timerPending := false } := by
  unfold autoPushEffectRun
  dsimp only
  split_ifs with h1 <;> simp_all [isEnabled]

lemma autoPushEffectRun_not_hydrated (c : SyncConfig) (h : c.initialPullDone = false) :
    autoPushEffectRun c = { c with timerPending := false } := by
  unfold autoPushEffectRun
  dsimp only
  split_ifs <;> simp_all

lemma autoPushEffectRun_consumes_flag (c : SyncConfig) (h1 : isEnabled c = true)
    (h2 : c.initialPullDone = true) (h3 : c.isPushing = false)
    (h4 : c.isFromRealtime = true) :
    autoPushEffectRun c = { c with timerPending := false, isFromRealtime := false } := by
  unfold autoPushEffectRun
  dsimp only
  split_ifs <;> simp_all [isEnabled]

lemma autoPushEffectRun_schedules (c : SyncConfig) (h1 : isEnabled c = true)
    (h2 : c.initialPullDone = true) (h3 : c.isPushing = false)
    (h4 : c.isFromRealtime = false) (h5 : c.dateCells.length ≠ 0) :
    autoPushEffectRun c = { c with timerPending := true } := by
  unfold autoPushEffectRun
  dsimp only
  split_ifs <;> simp_all [isEnabled]

lemma pushToCloud_user_none (c : SyncConfig) (now : String) (res : UpsertResult)
    (h : c.user = none) : pushToCloud c now res = c := by
  simp [pushToCloud, h]

lemma pushToCloud_ok (c : SyncConfig) (uid now : String)
    (h : c.user = some uid) (hs : c.supabaseAvailable = true) :
    pushToCloud c now .ok =
      { c with calls := c.calls ++ [IOCall.upsert ⟨uid, c.year, c.dateCells, now⟩],
               syncTs := some now, syncStatus := "idle", isPushing := false } := by
  simp [pushToCloud, h, hs, setSyncTimestamp]

lemma pushToCloud_err (c : SyncConfig) (uid now : String)
    (h : c.user = some uid) (hs : c.supabaseAvailable = true) :
    pushToCloud c now .err =
      { c with calls := c.calls ++ [IOCall.upsert ⟨uid, c.year, c.dateCells, now⟩],
               syncStatus := "error", isPushing := false } := by
  simp [pushToCloud, h, hs]

lemma pullFromCloudRun_user_none (c : SyncConfig) (res : FetchResult)
    (h : c.user = none) : pullFromCloudRun c res = (c, false) := by
  simp [pullFromCloudRun, h]

lemma pullFromCloudRun_failure (c : SyncConfig) (uid : String)
    (h : c.user = some uid) (hs : c.supabaseAvailable = true) :
    pullFromCloudRun c .failure =
      ({ c with calls := c.calls ++ [IOCall.fetch uid c.year],
                syncStatus := "error" }, false) := by
  simp [pullFromCloudRun, h, hs]

lemma pullFromCloudRun_absent (c : SyncConfig) (uid : String)
    (h : c.user = some uid) (hs : c.supabaseAvailable = true) :
    pullFromCloudRun c .absent =
      ({ c with calls := c.calls ++ [IOCall.fetch uid c.year],
                syncStatus := "idle" }, false) := by
  simp [pullFromCloudRun, h, hs]

lemma pullFromCloudRun_found_empty (c : SyncConfig) (uid cloudTs : String)
    (cloudData : DocState) (h : c.user = some uid) (hs : c.supabaseAvailable = true)
    (hd : cloudData.length = 0) :
    pullFromCloudRun c (.found cloudData cloudTs) =
      ({ c with calls := c.calls ++ [IOCall.fetch uid c.year],
                syncStatus := "idle" }, false) := by
  simp [pullFromCloudRun, h, hs, hd]

lemma pullFromCloudRun_found_applies (c : SyncConfig) (uid cloudTs : String)
    (cloudData : DocState) (h : c.user = some uid) (hs : c.supabaseAvailable = true)
    (hd : cloudData.length ≠ 0) (ha : pullApplies c cloudTs = true) :
    pullFromCloudRun c (.found cloudData cloudTs) =
      ({ c with calls := c.calls ++ [IOCall.fetch uid c.year],
                dateCells := cloudData, syncTs := some cloudTs,
                syncStatus := "idle" }, true) := by
  obtain ⟨sb, u, yr, dc, ts, st, ip, ifr, ipd, tp, ch, cl⟩ := c
  dsimp only at h hs ha
  subst hs
  subst h
  cases hts : ts
  all_goals simp_all [pullFromCloudRun, pullApplies, getSyncTimestamp, setSyncTimestamp]

lemma pullFromCloudRun_found_not_applies (c : SyncConfig) (uid cloudTs : String)
    (cloudData : DocState) (h : c.user = some uid) (hs : c.supabaseAvailable = true)
    (ha : pullApplies c cloudTs = false) :
    pullFromCloudRun c (.found cloudData cloudTs) =
      ({ c with calls := c.calls ++ [IOCall.fetch uid c.year],
                syncStatus := "idle" }, false) := by
  obtain ⟨sb, u, yr, dc, ts, st, ip, ifr, ipd, tp, ch, cl⟩ := c
  dsimp only at h hs ha
  subst hs
  subst h
  cases hts : ts
  all_goals by_cases hd : cloudData.length = 0
  all_goals simp_all [pullFromCloudRun, pullApplies, getSyncTimestamp, setSyncTimestamp]

lemma realtimeHandler_preserves (c : SyncConfig) (row : RealtimeRow) :
    ((realtimeHandler c row).1).syncStatus = c.syncStatus ∧
    ((realtimeHandler c row).1).calls = c.calls ∧
    ((realtimeHandler c row).1).user = c.user ∧
    ((realtimeHandler c row).1).year = c.year ∧
    ((realtimeHandler c row).1).supabaseAvailable = c.supabaseAvailable ∧
    ((realtimeHandler c row).1).initialPullDone = c.initialPullDone ∧
    ((realtimeHandler c row).1).isPushing = c.isPushing ∧
    ((realtimeHandler c row).1).timerPending = c.timerPending := by
  unfold realtimeHandler
  split_ifs <;> simp [setSyncTimestamp]

lemma realtimeHandler_applies (c : SyncConfig) (row : RealtimeRow)
    (hy : row.year = c.year)
    (he : echoMatch (getSyncTimestamp c) row.updated_at = false)
    (hd : row.data.length ≠ 0) :
    realtimeHandler c row =
      ({ c with isFromRealtime := true, dateCells := row.data,
                syncTs := some row.updated_at }, true) := by
  unfold realtimeHandler
  split_ifs <;> simp_all [setSyncTimestamp]

lemma realtimeHandler_no_apply (c : SyncConfig) (row : RealtimeRow)
    (h : row.year ≠ c.year ∨ echoMatch (getSyncTimestamp c) row.updated_at = true ∨
         row.data.length = 0) :
    realtimeHandler c row = (c, false) := by
  unfold realtimeHandler
  split_ifs <;> simp_all

lemma subscribeEffectRun_disabled (c : SyncConfig) (h : isEnabled c = false) :
    subscribeEffectRun c = c := by
  simp [subscribeEffectRun, h]

lemma subscribeEffectRun_enabled (c : SyncConfig) (h : isEnabled c = true) :
    subscribeEffectRun c =
      { c with channelId := c.channelId + 1,
               calls := c.calls ++
                 [IOCall.subscribe ("calendar-sync-" ++ toString c.year ++ "-"
                   ++ toString (c.channelId + 1))] } := by
  simp [subscribeEffectRun, h]

lemma autoPushEffectRun_timer_hydrated (c : SyncConfig)
    (h : (autoPushEffectRun c).timerPending = true) : c.initialPullDone = true := by
  unfold autoPushEffectRun at h
  dsimp only at h
  split_ifs at h
  all_goals simp_all

lemma autoPushEffectRun_flag_false (c : SyncConfig) (h : c.isFromRealtime = false) :
    (autoPushEffectRun c).isFromRealtime = false := by
  unfold autoPushEffectRun
  dsimp only
  split_ifs
  all_goals simp_all

lemma pushToCloud_preserves (c : SyncConfig) (now : String) (res : UpsertResult) :
    (pushToCloud c now res).user = c.user ∧
    (pushToCloud c now res).year = c.year ∧
    (pushToCloud c now res).dateCells = c.dateCells ∧
    (pushToCloud c now res).supabaseAvailable = c.supabaseAvailable ∧
    (pushToCloud c now res).initialPullDone = c.initialPullDone ∧
    (pushToCloud c now res).timerPending = c.timerPending ∧
    (pushToCloud c now res).isFromRealtime = c.isFromRealtime := by
  cases hu : c.user <;> cases res <;>
    simp [pushToCloud, setSyncTimestamp, hu] <;> split_ifs <;> simp_all

lemma pushToCloud_not_available (c : SyncConfig) (now : String) (res : UpsertResult)
    (h : c.supabaseAvailable = false) : pushToCloud c now res = c := by
  cases hu : c.user <;> simp [pushToCloud, hu, h]

lemma pushToCloud_upsert_mem (c : SyncConfig) (now : String) (res : UpsertResult)
    (u : Upsert) (h : IOCall.upsert u ∈ (pushToCloud c now res).calls) :
    IOCall.upsert u ∈ c.calls ∨ u.data = c.dateCells := by
  cases hu : c.user with
  | none =>
    rw [pushToCloud_user_none c now res hu] at h
    exact Or.inl h
  | some uid =>
    by_cases hs : c.supabaseAvailable = true
    · have hmem : IOCall.upsert u ∈
          c.calls ++ [IOCall.upsert ⟨uid, c.year, c.dateCells, now⟩] := by
        cases res
        · rw [pushToCloud_ok c uid now hu hs] at h
          exact h
        · rw [pushToCloud_err c uid now hu hs] at h
          exact h
      rcases List.mem_append.mp hmem with h1 | h1
      · exact Or.inl h1
      · have h2 := List.mem_singleton.mp h1
        injection h2 with h3
        subst h3
        exact Or.inr rfl
    · rw [pushToCloud_not_available c now res (by simpa using hs)] at h
      exact Or.inl h

lemma pullFromCloudRun_preserves (c : SyncConfig) (res : FetchResult) :
    ((pullFromCloudRun c res).1).user = c.user ∧
    ((pullFromCloudRun c res).1).year = c.year ∧
    ((pullFromCloudRun c res).1).supabaseAvailable = c.supabaseAvailable ∧
    ((pullFromCloudRun c res).1).initialPullDone = c.initialPullDone ∧
    ((pullFromCloudRun c res).1).timerPending = c.timerPending ∧
    ((pullFromCloudRun c res).1).isFromRealtime = c.isFromRealtime ∧
    ((pullFromCloudRun c res).1).isPushing = c.isPushing := by
  cases hu : c.user <;> cases res <;>
    simp [pullFromCloudRun, setSyncTimestamp, hu] <;> split_ifs <;> simp_all

lemma pullFromCloudRun_snd_false (c : SyncConfig) (res : FetchResult)
    (h : (pullFromCloudRun c res).2 = false) :
    ((pullFromCloudRun c res).1).dateCells = c.dateCells ∧
    ((pullFromCloudRun c res).1).syncTs = c.syncTs := by
  cases hu : c.user <;> cases res <;>
    simp [pullFromCloudRun, setSyncTimestamp, hu] at h ⊢ <;> split_ifs <;> simp_all

lemma pullFromCloudRun_snd_true (c : SyncConfig) (res : FetchResult)
    (h : (pullFromCloudRun c res).2 = true) :
    ∃ cloudData cloudTs, res = .found cloudData cloudTs ∧ cloudData.length ≠ 0 ∧
      ((pullFromCloudRun c res).1).dateCells = cloudData := by
  cases hu : c.user <;> cases res <;>
    simp [pullFromCloudRun, setSyncTimestamp, hu] at h ⊢
  all_goals split_ifs at h ⊢
  all_goals simp_all

lemma pullFromCloudRun_upsert_mem (c : SyncConfig) (res : FetchResult)
    (u : Upsert) (h : IOCall.upsert u ∈ ((pullFromCloudRun c res).1).calls) :
    IOCall.upsert u ∈ c.calls := by
  cases hu : c.user <;> cases res <;>
    simp [pullFromCloudRun, setSyncTimestamp, hu] at h <;> try exact h
  all_goals split_ifs at h <;> simp_all

lemma subscribeEffectRun_preserves (c : SyncConfig) :
    (subscribeEffectRun c).user = c.user ∧
    (subscribeEffectRun c).year = c.year ∧
    (subscribeEffectRun c).dateCells = c.dateCells ∧
    (subscribeEffectRun c).supabaseAvailable = c.supabaseAvailable ∧
    (subscribeEffectRun c).initialPullDone = c.initialPullDone ∧
    (subscribeEffectRun c).timerPending = c.timerPending ∧
    (subscribeEffectRun c).isFromRealtime = c.isFromRealtime ∧
    (subscribeEffectRun c).syncStatus = c.syncStatus := by
  unfold subscribeEffectRun
  split_ifs <;> simp

lemma subscribeEffectRun_upsert_mem (c : SyncConfig) (u : Upsert)
    (h : IOCall.upsert u ∈ (subscribeEffectRun c).calls) :
    IOCall.upsert u ∈ c.calls := by
  unfold subscribeEffectRun at h
  split_ifs at h <;> simp_all

lemma realtimeHandler_not_applied_eq (c : SyncConfig) (row : RealtimeRow)
    (h : (realtimeHandler c row).2 = false) : (realtimeHandler c row).1 = c := by
  unfold realtimeHandler at h ⊢
  split_ifs <;> simp_all

lemma isEnabled_user_none (c : SyncConfig) (h : c.user = none) :
    isEnabled c = false := by
  simp [isEnabled, h]

lemma step_user_none (c : SyncConfig) (e : Event) (h : c.user = none) :
    (step c e).syncStatus = c.syncStatus ∧ (step c e).calls = c.calls ∧
    (step c e).user = none := by
  cases e with
  | mutate cells =>
    simp only [step]
    have hf := autoPushEffectRun_fields { c with dateCells := cells }
    exact ⟨hf.2.2.2.2.2.2.1, hf.2.2.1, hf.2.2.2.1.trans h⟩
  | timerFire now res =>
    simp only [step]
    by_cases ht : c.timerPending = true
    · rw [if_pos ht,
        pushToCloud_user_none { c with timerPending := false } now res h]
      exact ⟨rfl, rfl, h⟩
    · rw [if_neg ht]
      exact ⟨rfl, rfl, h⟩
  | notify row =>
    simp only [step]
    have hp := realtimeHandler_preserves c row
    by_cases ha : (realtimeHandler c row).2 = true
    · rw [if_pos ha]
      have hf := autoPushEffectRun_fields (realtimeHandler c row).1
      exact ⟨hf.2.2.2.2.2.2.1.trans hp.1, hf.2.2.1.trans hp.2.1,
        (hf.2.2.2.1.trans hp.2.2.1).trans h⟩
    · rw [if_neg ha]
      exact ⟨hp.1, hp.2.1, hp.2.2.1.trans h⟩
  | mountPull res =>
    have hie : isEnabled c = false := isEnabled_user_none c h
    simp [step, hie, h]
  | manualPull res =>
    have he := pullFromCloudRun_user_none c res h
    simp [step, he, h]
  | manualPush now res =>
    simp only [step]
    rw [pushToCloud_user_none c now res h]
    exact ⟨rfl, rfl, h⟩
  | subscribeEffect =>
    simp only [step]
    rw [subscribeEffectRun_disabled c (isEnabled_user_none c h)]
    exact ⟨rfl, rfl, h⟩

lemma steps_user_none (c : SyncConfig) (es : List Event) (h : c.user = none) :
    (steps c es).syncStatus = c.syncStatus ∧ (steps c es).calls = c.calls ∧
    (steps c es).user = none := by
  induction es generalizing c with
  | nil => exact ⟨rfl, rfl, h⟩
  | cons e es ih =>
    have h1 := step_user_none c e h
    have h2 := ih (step c e) h1.2.2
    exact ⟨h2.1.trans h1.1, h2.2.1.trans h1.2.1, h2.2.2⟩

lemma autoPushEffectRun_inv (d : SyncConfig)
    (h : (autoPushEffectRun d).timerPending = true) :
    (autoPushEffectRun d).dateCells ≠ [] := by
  have h1 := autoPushEffectRun_timer_sound d h
  rw [(autoPushEffectRun_fields d).1]
  intro hcon
  rw [hcon] at h1
  exact h1 rfl

lemma step_mutate_burst (c : SyncConfig) (m : DocState) (hb : BurstReady c) :
    BurstReady (step c (.mutate m)) ∧
    (step c (.mutate m)).calls = c.calls ∧
    (step c (.mutate m)).user = c.user ∧
    (step c (.mutate m)).year = c.year := by
  obtain ⟨h1, h2, h3, h4⟩ := hb
  simp only [step]
  have hf := autoPushEffectRun_fields { c with dateCells := m }
  have hflag : (autoPushEffectRun { c with dateCells := m }).isFromRealtime = false :=
    autoPushEffectRun_flag_false _ h4
  refine ⟨⟨?_, hf.2.2.2.2.2.2.2.1.trans h2, hf.2.2.2.2.2.2.2.2.trans h3, hflag⟩,
    hf.2.2.1, hf.2.2.2.1, hf.2.2.2.2.1⟩
  simp only [isEnabled, hf.2.2.2.2.2.1, hf.2.2.2.1]
  simpa [isEnabled] using h1

lemma burst_foldl (c : SyncConfig) (ms : List DocState) (hb : BurstReady c) :
    BurstReady (steps c (ms.map Event.mutate)) ∧
    (steps c (ms.map Event.mutate)).calls = c.calls ∧
    (steps c (ms.map Event.mutate)).user = c.user ∧
    (steps c (ms.map Event.mutate)).year = c.year := by
  induction ms generalizing c with
  | nil => exact ⟨hb, rfl, rfl, rfl⟩
  | cons m ms ih =>
    have h1 := step_mutate_burst c m hb
    have h2 := ih (step c (.mutate m)) h1.1
    exact ⟨h2.1, h2.2.1.trans h1.2.1, h2.2.2.1.trans h1.2.2.1,
      h2.2.2.2.trans h1.2.2.2⟩

lemma step_no_empty_upsert (c : SyncConfig) (e : Event)
    (hmp : isManualPushEvent e = false)
    (hinv : c.timerPending = true → c.dateCells ≠ [])
    (hcalls : upsertsNonempty c.calls) :
    upsertsNonempty (step c e).calls ∧
    ((step c e).timerPending = true → (step c e).dateCells ≠ []) := by
  cases e with
  | mutate cells =>
    simp only [step]
    have hf := autoPushEffectRun_fields { c with dateCells := cells }
    constructor
    · rw [hf.2.2.1]
      exact hcalls
    · exact autoPushEffectRun_inv _
  | timerFire now res =>
    simp only [step]
    by_cases ht : c.timerPending = true
    · rw [if_pos ht]
      have hp := pushToCloud_preserves { c with timerPending := false } now res
      constructor
      · intro u hu
        rcases pushToCloud_upsert_mem _ now res u hu with h | h
        · exact hcalls u h
        · rw [h]
          exact hinv ht
      · intro hcon
        rw [hp.2.2.2.2.2.1] at hcon
        simp at hcon
    · rw [if_neg ht]
      exact ⟨hcalls, hinv⟩
  | notify row =>
    simp only [step]
    have hp := realtimeHandler_preserves c row
    by_cases ha : (realtimeHandler c row).2 = true
    · rw [if_pos ha]
      constructor
      · rw [(autoPushEffectRun_fields _).2.2.1, hp.2.1]
        exact hcalls
      · exact autoPushEffectRun_inv _
    · rw [if_neg ha]
      rw [realtimeHandler_not_applied_eq c row (by simpa using ha)]
      exact ⟨hcalls, hinv⟩
  | mountPull res =>
    simp only [step]
    by_cases hie : isEnabled c = true
    · rw [if_pos hie]
      have hpc : upsertsNonempty
          ((pullFromCloudRun { c with initialPullDone := false } res).1).calls := by
        intro u hu
        exact hcalls u
          (pullFromCloudRun_upsert_mem { c with initialPullDone := false } res u hu)
      by_cases hap : (pullFromCloudRun { c with initialPullDone := false } res).2 = true
      · rw [if_pos hap]
        constructor
        · intro u hu
          simp only at hu
          exact hpc u (by
            have := (autoPushEffectRun_fields
              ((pullFromCloudRun { c with initialPullDone := false } res).1)).2.2.1
            rw [this] at hu
            exact hu)
        · intro hcon
          have := autoPushEffectRun_inv
            ((pullFromCloudRun { c with initialPullDone := false } res).1) (by simpa using hcon)
          simpa using this
      · rw [if_neg hap]
        have hsf := pullFromCloudRun_snd_false { c with initialPullDone := false } res
          (by simpa using hap)
        have hpr := pullFromCloudRun_preserves { c with initialPullDone := false } res
        constructor
        · intro u hu
          simp only at hu
          exact hpc u hu
        · intro hcon
          simp only at hcon
          rw [hpr.2.2.2.2.1] at hcon
          have hd := hinv hcon
          rw [hsf.1]
          exact hd
    · rw [if_neg hie]
      exact ⟨hcalls, hinv⟩
  | manualPull res =>
    simp only [step]
    have hpc : upsertsNonempty ((pullFromCloudRun c res).1).calls := by
      intro u hu
      exact hcalls u (pullFromCloudRun_upsert_mem c res u hu)
    by_cases hap : (pullFromCloudRun c res).2 = true
    · rw [if_pos hap]
      constructor
      · rw [(autoPushEffectRun_fields _).2.2.1]
        exact hpc
      · exact autoPushEffectRun_inv _
    · rw [if_neg hap]
      have hsf := pullFromCloudRun_snd_false c res (by simpa using hap)
      have hpr := pullFromCloudRun_preserves c res
      constructor
      · exact hpc
      · intro hcon
        rw [hpr.2.2.2.2.1] at hcon
        rw [hsf.1]
        exact hinv hcon
  | manualPush now res =>
    simp [isManualPushEvent] at hmp
  | subscribeEffect =>
    simp only [step]
    have hs := subscribeEffectRun_preserves c
    constructor
    · intro u hu
      exact hcalls u (subscribeEffectRun_upsert_mem c u hu)
    · intro hcon
      rw [hs.2.2.2.2.2.1] at hcon
      rw [hs.2.2.1]
      exact hinv hcon

lemma steps_no_empty_upsert (c : SyncConfig) (es : List Event)
    (hmp : ∀ e ∈ es, isManualPushEvent e = false)
    (hinv : c.timerPending = true → c.dateCells ≠ [])
    (hcalls : upsertsNonempty c.calls) :
    upsertsNonempty (steps c es).calls ∧
    ((steps c es).timerPending = true → (steps c es).dateCells ≠ []) := by
  induction es generalizing c with
  | nil => exact ⟨hcalls, hinv⟩
  | cons e es ih =>
    have h1 := step_no_empty_upsert c e (hmp e (List.mem_cons_self e es)) hinv hcalls
    exact ih (step c e) (fun x hx => hmp x (List.mem_cons_of_mem e hx)) h1.2 h1.1

lemma step_mutate_not_hydrated (c : SyncConfig) (m : DocState)
    (h : c.initialPullDone = false) :
    (step c (.mutate m)).calls = c.calls ∧
    (step c (.mutate m)).timerPending = false ∧
    (step c (.mutate m)).initialPullDone = false := by
  simp only [step]
  rw [autoPushEffectRun_not_hydrated { c with dateCells := m } h]
  exact ⟨rfl, rfl, h⟩

lemma steps_mutate_not_hydrated (c : SyncConfig) (ms : List DocState)
    (h : c.initialPullDone = false) (ht : c.timerPending = false) :
    (steps c (ms.map Event.mutate)).calls = c.calls ∧
    (steps c (ms.map Event.mutate)).timerPending = false := by
  induction ms generalizing c with
  | nil => exact ⟨rfl, ht⟩
  | cons m ms ih =>
    have h1 := step_mutate_not_hydrated c m h
    have h2 := ih (step c (.mutate m)) h1.2.2 h1.2.1
    exact ⟨h2.1.trans h1.1, h2.2⟩

lemma step_timer_activation (c : SyncConfig) (e : Event)
    (h : (step c e).timerPending = true) :
    c.timerPending = true ∨ c.initialPullDone = true := by
  cases e with
  | mutate cells =>
    right
    exact autoPushEffectRun_timer_hydrated { c with dateCells := cells } (by simpa [step] using h)
  | timerFire now res =>
    by_cases ht : c.timerPending = true
    · exact Or.inl ht
    · left
      simp only [step, if_neg ht] at h
      exact h
  | notify row =>
    by_cases ha : (realtimeHandler c row).2 = true
    · right
      simp only [step, if_pos ha] at h
      have h2 := autoPushEffectRun_timer_hydrated _ h
      rw [(realtimeHandler_preserves c row).2.2.2.2.2.1] at h2
      exact h2
    · left
      simp only [step, if_neg ha] at h
      rw [realtimeHandler_not_applied_eq c row (by simpa using ha)] at h
      exact h
  | mountPull res =>
    by_cases hie : isEnabled c = true
    · simp only [step, if_pos hie] at h
      by_cases hap : (pullFromCloudRun { c with initialPullDone := false } res).2 = true
      · rw [if_pos hap] at h
        have hpd : ((pullFromCloudRun { c with initialPullDone := false } res).1).initialPullDone
            = false :=
          (pullFromCloudRun_preserves { c with initialPullDone := false } res).2.2.2.1
        rw [autoPushEffectRun_not_hydrated _ hpd] at h
        simp at h
      · rw [if_neg hap] at h
        left
        rw [show ({ (pullFromCloudRun { c with initialPullDone := false } res).1 with
              initialPullDone := true } : SyncConfig).timerPending
            = ((pullFromCloudRun { c with initialPullDone := false } res).1).timerPending
          from rfl] at h
        rw [(pullFromCloudRun_preserves { c with initialPullDone := false } res).2.2.2.2.1] at h
        exact h
    · simp only [step, if_neg hie] at h
      exact Or.inl h
  | manualPull res =>
    by_cases hap : (pullFromCloudRun c res).2 = true
    · right
      simp only [step, if_pos hap] at h
      have h2 := autoPushEffectRun_timer_hydrated _ h
      rw [(pullFromCloudRun_preserves c res).2.2.2.1] at h2
      exact h2
    · left
      simp only [step, if_neg hap] at h
      rw [(pullFromCloudRun_preserves c res).2.2.2.2.1] at h
      exact h
  | manualPush now res =>
    left
    simp only [step] at h
    rw [(pushToCloud_preserves c now res).2.2.2.2.2.1] at h
    exact h
  | subscribeEffect =>
    left
    simp only [step] at h
    rw [(subscribeEffectRun_preserves c).2.2.2.2.2.1] at h
    exact h

lemma pullFromCloudRun_absent_snd (c : SyncConfig) :
    (pullFromCloudRun c .absent).2 = false := by
  cases hu : c.user <;> simp [pullFromCloudRun, hu]
  all_goals split_ifs
  all_goals simp

lemma pullFromCloudRun_found_nil_snd (c : SyncConfig) (ts : String) :
    (pullFromCloudRun c (.found [] ts)).2 = false := by
  cases hu : c.user <;> simp [pullFromCloudRun, hu]
  all_goals split_ifs
  all_goals simp

/-! ## The claims -/

/-- C1, counterexample.  The claim says the persisted Sync Timestamp is
never set to a locally-generated value.  In `pushToCloud` the value
persisted on success (line 77) is exactly the `new Date().toISOString()`
computed locally at line 60 — the store only answers with an `error`
field and reports no timestamp for the upsert.  Here a successful push
from a configuration whose stored timestamp differs makes the persisted
timestamp equal to the local clock argument. -/
theorem push_persists_local_clock_value :
    (pushToCloud
        (initialConfig true (some "user-123") 2025
          [("2025-01-01", ⟨"red"⟩)] (some "2025-01-01T00:00:00.000Z"))
        "2025-06-01T12:00:00.000Z" .ok).syncTs = some "2025-06-01T12:00:00.000Z" ∧
    (initialConfig true (some "user-123") 2025
        [("2025-01-01", ⟨"red"⟩)] (some "2025-01-01T00:00:00.000Z")).syncTs
      ≠ some "2025-06-01T12:00:00.000Z" ∧
    (pushToCloud
        (initialConfig true (some "user-123") 2025
          [("2025-01-01", ⟨"red"⟩)] (some "2025-01-01T00:00:00.000Z"))
        "2025-06-01T12:00:00.000Z" .ok).calls
      = [IOCall.upsert ⟨"user-123", 2025, [("2025-01-01", ⟨"red"⟩)],
          "2025-06-01T12:00:00.000Z"⟩] := by
  decide

/-- C1, amended.  After a successful pull that applies the fetched
document, the Sync Timestamp is set to the store-reported `updated_at`;
pulls that fetch nothing, fail, fetch an empty payload or do not apply
leave it unchanged; after a successful push it is set to the
locally-generated wall-clock timestamp that the push sent to the store
as the row `updated_at` (a failed push leaves it unchanged). -/
theorem sync_ts_provenance (c : SyncConfig) (uid now cloudTs : String) (d : DocState)
    (hu : c.user = some uid) (hs : c.supabaseAvailable = true) :
    (pushToCloud c now .ok).syncTs = some now ∧
    (pushToCloud c now .err).syncTs = c.syncTs ∧
    (pullFromCloud c .absent).syncTs = c.syncTs ∧
    (pullFromCloud c .failure).syncTs = c.syncTs ∧
    (d.length ≠ 0 → pullApplies c cloudTs = true →
      (pullFromCloud c (.found d cloudTs)).syncTs = some cloudTs) ∧
    (pullApplies c cloudTs = false →
      (pullFromCloud c (.found d cloudTs)).syncTs = c.syncTs) ∧
    (d.length = 0 → (pullFromCloud c (.found d cloudTs)).syncTs = c.syncTs) := by
  refine ⟨?_, ?_, ?_, ?_, ?_, ?_, ?_⟩
  · rw [pushToCloud_ok c uid now hu hs]
  · rw [pushToCloud_err c uid now hu hs]
  · rw [pullFromCloud, pullFromCloudRun_absent c uid hu hs]
  · rw [pullFromCloud, pullFromCloudRun_failure c uid hu hs]
  · intro hd ha
    rw [pullFromCloud, pullFromCloudRun_found_applies c uid cloudTs d hu hs hd ha]
  · intro ha
    rw [pullFromCloud, pullFromCloudRun_found_not_applies c uid cloudTs d hu hs ha]
  · intro hd
    rw [pullFromCloud, pullFromCloudRun_found_empty c uid cloudTs d hu hs hd]

/-- C1, witness for the amended theorem at a concrete configuration. -/
theorem sync_ts_provenance_witness :
    (initialConfig true (some "user-123") 2025
        [("2025-01-01", ⟨"red"⟩)] none).user = some "user-123" ∧
    (initialConfig true (some "user-123") 2025
        [("2025-01-01", ⟨"red"⟩)] none).supabaseAvailable = true ∧
    (pushToCloud
        (initialConfig true (some "user-123") 2025 [("2025-01-01", ⟨"red"⟩)] none)
        "2025-06-01T12:00:00.000Z" .ok).syncTs = some "2025-06-01T12:00:00.000Z" :=
  ⟨rfl, rfl,
    (sync_ts_provenance
      (initialConfig true (some "user-123") 2025 [("2025-01-01", ⟨"red"⟩)] none)
      "user-123" "2025-06-01T12:00:00.000Z" "2025-06-02T00:00:00.000Z" []
      rfl rfl).1⟩

/-- C2, counterexample.  The claim says no upsert is ever issued from an
empty local state, "neither by the debounced auto-push nor by an
explicit push request".  The emptiness guard (line 197) lives only in
the auto-push effect; `pushToCloud` itself has no such check, so an
explicit push request from an empty Document State issues an upsert
whose payload is the empty object. -/
theorem explicit_push_empty_upserts :
    (initialConfig true (some "user-123") 2025 [] none).dateCells = [] ∧
    (step (initialConfig true (some "user-123") 2025 [] none)
        (.manualPush "2025-06-01T12:00:00.000Z" .ok)).calls
      = [IOCall.upsert ⟨"user-123", 2025, [], "2025-06-01T12:00:00.000Z"⟩] := by
  decide

/-- C2, amended.  Along every event sequence containing no explicit
`pushToCloud` invocation, every upsert issued carries a non-empty
payload: the debounced auto-push path never pushes an empty Document
State (an explicit push request, by contrast, does not check
emptiness). -/
theorem auto_push_never_empty (c : SyncConfig) (es : List Event)
    (hmp : ∀ e ∈ es, isManualPushEvent e = false)
    (hinv : c.timerPending = true → c.dateCells ≠ [])
    (hcalls : upsertsNonempty c.calls) :
    upsertsNonempty (steps c es).calls :=
  (steps_no_empty_upsert c es hmp hinv hcalls).1

/-- C2, witness for the amended theorem: a burst of edits ending in an
emptied state, followed by the timer, issues no empty upsert. -/
theorem auto_push_never_empty_witness :
    (∀ e ∈ [Event.mutate ([] : DocState),
            Event.timerFire "2025-06-01T12:00:00.000Z" UpsertResult.ok],
        isManualPushEvent e = false) ∧
    upsertsNonempty (steps (initialConfig true (some "user-123") 2025 [] none)
        [Event.mutate ([] : DocState),
         Event.timerFire "2025-06-01T12:00:00.000Z" UpsertResult.ok]).calls :=
  ⟨by decide,
    auto_push_never_empty (initialConfig true (some "user-123") 2025 [] none)
      [Event.mutate ([] : DocState),
       Event.timerFire "2025-06-01T12:00:00.000Z" UpsertResult.ok]
      (by decide)
      (fun h => by simp [initialConfig] at h)
      (fun u hu => by simp [initialConfig] at hu)⟩

/-- C3.  A pull that fetches an absent remote document or a remote
payload with zero date keys leaves the local Document State
untouched. -/
theorem empty_pull_preserves_local (c : SyncConfig) (d : DocState) (ts : String)
    (hd : d = []) :
    (pullFromCloud c .absent).dateCells = c.dateCells ∧
    (pullFromCloud c (.found d ts)).dateCells = c.dateCells := by
  subst hd
  exact ⟨(pullFromCloudRun_snd_false c .absent (pullFromCloudRun_absent_snd c)).1,
    (pullFromCloudRun_snd_false c (.found [] ts) (pullFromCloudRun_found_nil_snd c ts)).1⟩

/-- C3, witness at a concrete non-empty local state. -/
theorem empty_pull_preserves_local_witness :
    (pullFromCloud
        (initialConfig true (some "user-123") 2025
          [("2025-01-01", ⟨"blue"⟩)] (some "2025-01-01T00:00:00.000Z"))
        .absent).dateCells = [("2025-01-01", ⟨"blue"⟩)] ∧
    (pullFromCloud
        (initialConfig true (some "user-123") 2025
          [("2025-01-01", ⟨"blue"⟩)] (some "2025-01-01T00:00:00.000Z"))
        (.found [] "2025-06-01T00:00:00.000Z")).dateCells
      = [("2025-01-01", ⟨"blue"⟩)] :=
  empty_pull_preserves_local
    (initialConfig true (some "user-123") 2025
      [("2025-01-01", ⟨"blue"⟩)] (some "2025-01-01T00:00:00.000Z"))
    [] "2025-06-01T00:00:00.000Z" rfl

/-- C4, counterexample.  The claim says a fetched non-empty remote
document with `updatedAt` not greater than the recorded Sync Timestamp
is never applied.  The application condition (line 117) also fires when
the local Document State is empty: here the recorded timestamp is newer
than the remote one, yet the pull replaces the empty local state with
the remote payload and persists the older remote timestamp. -/
theorem stale_remote_applied_when_local_empty :
    jsStrLt "2025-06-01T00:00:00.000Z" "2025-01-01T00:00:00.000Z" = false ∧
    (pullFromCloud
        (initialConfig true (some "user-123") 2025 []
          (some "2025-06-01T00:00:00.000Z"))
        (.found [("2025-01-01", ⟨"red"⟩)] "2025-01-01T00:00:00.000Z")).dateCells
      = [("2025-01-01", ⟨"red"⟩)] ∧
    (pullFromCloud
        (initialConfig true (some "user-123") 2025 []
          (some "2025-06-01T00:00:00.000Z"))
        (.found [("2025-01-01", ⟨"red"⟩)] "2025-01-01T00:00:00.000Z")).syncTs
      = some "2025-01-01T00:00:00.000Z" := by
  decide

/-- C4, amended.  With a recorded Sync Timestamp T and a fetched
non-empty remote document: if `updatedAt > T` (JS string order) the pull
applies it; if `updatedAt ≤ T` it does not apply it, provided the local
Document State is non-empty (an empty local state is always overwritten
regardless of timestamps). -/
theorem newer_wins_nonempty_local (c : SyncConfig) (uid T cloudTs : String)
    (d : DocState) (hu : c.user = some uid) (hs : c.supabaseAvailable = true)
    (hT : c.syncTs = some T) (hd : d.length ≠ 0) :
    (jsStrLt T cloudTs = true →
      (pullFromCloud c (.found d cloudTs)).dateCells = d ∧
      (pullFromCloud c (.found d cloudTs)).syncTs = some cloudTs) ∧
    (jsStrLt T cloudTs = false → c.dateCells.length ≠ 0 →
      (pullFromCloud c (.found d cloudTs)).dateCells = c.dateCells ∧
      (pullFromCloud c (.found d cloudTs)).syncTs = c.syncTs) := by
  constructor
  · intro hlt
    have ha : pullApplies c cloudTs = true := by
      simp [pullApplies, getSyncTimestamp, hT, hlt]
    rw [pullFromCloud, pullFromCloudRun_found_applies c uid cloudTs d hu hs hd ha]
    exact ⟨rfl, rfl⟩
  · intro hlt hne
    have ha : pullApplies c cloudTs = false := by
      simp [pullApplies, getSyncTimestamp, hT, hlt, hne]
    rw [pullFromCloud, pullFromCloudRun_found_not_applies c uid cloudTs d hu hs ha]
    exact ⟨rfl, rfl⟩

/-- C4, witness for the amended theorem: a newer remote document is
applied, an older one is not, over the same non-empty local state. -/
theorem newer_wins_nonempty_local_witness :
    jsStrLt "2025-03-01T00:00:00.000Z" "2025-06-01T00:00:00.000Z" = true ∧
    (pullFromCloud
        (initialConfig true (some "user-123") 2025
          [("2025-01-01", ⟨"blue"⟩)] (some "2025-03-01T00:00:00.000Z"))
        (.found [("2025-01-01", ⟨"red"⟩)] "2025-06-01T00:00:00.000Z")).dateCells
      = [("2025-01-01", ⟨"red"⟩)] ∧
    jsStrLt "2025-03-01T00:00:00.000Z" "2025-02-01T00:00:00.000Z" = false ∧
    (pullFromCloud
        (initialConfig true (some "user-123") 2025
          [("2025-01-01", ⟨"blue"⟩)] (some "2025-03-01T00:00:00.000Z"))
        (.found [("2025-01-01", ⟨"red"⟩)] "2025-02-01T00:00:00.000Z")).dateCells
      = [("2025-01-01", ⟨"blue"⟩)] :=
  ⟨by decide,
    ((newer_wins_nonempty_local
        (initialConfig true (some "user-123") 2025
          [("2025-01-01", ⟨"blue"⟩)] (some "2025-03-01T00:00:00.000Z"))
        "user-123" "2025-03-01T00:00:00.000Z" "2025-06-01T00:00:00.000Z"
        [("2025-01-01", ⟨"red"⟩)] rfl rfl rfl (by decide)).1 (by decide)).1,
    by decide,
    ((newer_wins_nonempty_local
        (initialConfig true (some "user-123") 2025
          [("2025-01-01", ⟨"blue"⟩)] (some "2025-03-01T00:00:00.000Z"))
        "user-123" "2025-03-01T00:00:00.000Z" "2025-02-01T00:00:00.000Z"
        [("2025-01-01", ⟨"red"⟩)] rfl rfl rfl (by decide)).2 (by decide) (by decide)).1⟩

/-- C5.  A change notification whose `updatedAt` denotes the same
absolute instant (under the JS `Date` parse) as the currently recorded
Sync Timestamp leaves the whole engine configuration unchanged: the
handler returns before touching Document State or the stored
timestamp. -/
theorem echo_suppression (c : SyncConfig) (row : RealtimeRow) (l : String) (t : Int)
    (hl : getSyncTimestamp c = some l)
    (h1 : jsDateGetTime row.updated_at = some t)
    (h2 : jsDateGetTime l = some t) :
    step c (.notify row) = c := by
  have he : echoMatch (getSyncTimestamp c) row.updated_at = true := by
    rw [hl]
    simp [echoMatch, h1, h2]
  have hna := realtimeHandler_no_apply c row (Or.inr (Or.inl he))
  simp [step, hna]

/-- C5, witness: the locally stored `toISOString` Z-form
`2025-06-01T12:00:00.000Z` and the Supabase-delivered
`2025-06-01T12:00:00+00:00` differ as strings but denote the same
instant, and the notification is ignored entirely. -/
theorem echo_suppression_witness :
    getSyncTimestamp (initialConfig true (some "user-123") 2025
        [("2025-01-01", ⟨"blue"⟩)] (some "2025-06-01T12:00:00.000Z"))
      = some "2025-06-01T12:00:00.000Z" ∧
    jsDateGetTime "2025-06-01T12:00:00+00:00" = some 1748779200000 ∧
    jsDateGetTime "2025-06-01T12:00:00.000Z" = some 1748779200000 ∧
    step (initialConfig true (some "user-123") 2025
        [("2025-01-01", ⟨"blue"⟩)] (some "2025-06-01T12:00:00.000Z"))
      (.notify ⟨2025, [("2025-01-01", ⟨"red"⟩)], "2025-06-01T12:00:00+00:00"⟩)
      = initialConfig true (some "user-123") 2025
          [("2025-01-01", ⟨"blue"⟩)] (some "2025-06-01T12:00:00.000Z") :=
  ⟨rfl, by decide, by decide,
    echo_suppression
      (initialConfig true (some "user-123") 2025
        [("2025-01-01", ⟨"blue"⟩)] (some "2025-06-01T12:00:00.000Z"))
      ⟨2025, [("2025-01-01", ⟨"red"⟩)], "2025-06-01T12:00:00+00:00"⟩
      "2025-06-01T12:00:00.000Z" 1748779200000 rfl (by decide) (by decide)⟩

lemma final_mutate_then_fire (c1 : SyncConfig) (mlast : DocState) (uid now : String)
    (hb : BurstReady c1) (hcalls : c1.calls = []) (hu : c1.user = some uid)
    (hm : mlast ≠ []) :
    (step (step c1 (.mutate mlast)) (.timerFire now .ok)).calls
      = [IOCall.upsert ⟨uid, c1.year, mlast, now⟩] ∧
    (step (step c1 (.mutate mlast)) (.timerFire now .ok)).dateCells = mlast := by
  obtain ⟨he1, he2, he3, he4⟩ := hb
  have hm0 : mlast.length ≠ 0 := fun h0 => hm (List.length_eq_zero.mp h0)
  have hsched : step c1 (.mutate mlast)
      = { c1 with dateCells := mlast, timerPending := true } := by
    simp only [step]
    exact autoPushEffectRun_schedules { c1 with dateCells := mlast } he1 he2 he3 he4 hm0
  rw [hsched]
  have hsup : c1.supabaseAvailable = true := by
    have h := he1
    simp only [isEnabled, Bool.and_eq_true] at h
    exact h.1
  have hfire : step { c1 with dateCells := mlast, timerPending := true }
        (.timerFire now .ok)
      = pushToCloud { c1 with dateCells := mlast, timerPending := false } now .ok := by
    simp only [step, if_pos]
  rw [hfire, pushToCloud_ok { c1 with dateCells := mlast, timerPending := false }
    uid now hu hsup]
  constructor
  · simp [hcalls]
  · rfl

/-- C6.  A burst of local mutations with no timer expiry in between
(each arriving within the debounce window of the previous one), from a
steady state with the initial pull done, no push in flight, no
remote-origin flag and an empty call log, followed by the single timer
expiry, issues exactly one upsert, and its payload is the Document
State after the final mutation. -/
theorem debounce_coalescing (c : SyncConfig) (ms : List DocState) (mlast : DocState)
    (uid now : String) (hb : BurstReady c) (hu : c.user = some uid)
    (hcalls : c.calls = []) (hm : mlast ≠ []) :
    (step (steps c ((ms ++ [mlast]).map Event.mutate)) (.timerFire now .ok)).calls
      = [IOCall.upsert ⟨uid, c.year, mlast, now⟩] ∧
    (step (steps c ((ms ++ [mlast]).map Event.mutate)) (.timerFire now .ok)).dateCells
      = mlast := by
  obtain ⟨hbr, hcs, hus, hyr⟩ := burst_foldl c ms hb
  have hsplit : steps c ((ms ++ [mlast]).map Event.mutate)
      = step (steps c (ms.map Event.mutate)) (.mutate mlast) := by
    simp [steps, List.map_append, List.foldl_append]
  rw [hsplit]
  have key := final_mutate_then_fire (steps c (ms.map Event.mutate)) mlast uid now hbr
    (hcs.trans hcalls) (hus.trans hu) hm
  rw [hyr] at key
  exact key

/-- C6, witness: the 3-rapid-edits scenario — two earlier states then a
final 3-cell state, one timer expiry, exactly one upsert carrying the
final state. -/
theorem debounce_coalescing_witness :
    BurstReady { initialConfig true (some "user-123") 2025 [] none with
      initialPullDone := true } ∧
    (step (steps { initialConfig true (some "user-123") 2025 [] none with
          initialPullDone := true }
        ((([[("2025-01-01", ⟨"red"⟩)],
            [("2025-01-01", ⟨"red"⟩), ("2025-01-02", ⟨"blue"⟩)]] : List DocState)
          ++ ([[("2025-01-01", ⟨"red"⟩), ("2025-01-02", ⟨"blue"⟩),
                ("2025-01-03", ⟨"green"⟩)]] : List DocState)).map Event.mutate))
      (.timerFire "2025-06-01T12:00:00.000Z" .ok)).calls
      = [IOCall.upsert ⟨"user-123", 2025,
          [("2025-01-01", ⟨"red"⟩), ("2025-01-02", ⟨"blue"⟩),
           ("2025-01-03", ⟨"green"⟩)], "2025-06-01T12:00:00.000Z"⟩] :=
  ⟨⟨rfl, rfl, rfl, rfl⟩,
    (debounce_coalescing
      { initialConfig true (some "user-123") 2025 [] none with
        initialPullDone := true }
      ([[("2025-01-01", ⟨"red"⟩)],
        [("2025-01-01", ⟨"red"⟩), ("2025-01-02", ⟨"blue"⟩)]] : List DocState)
      ([("2025-01-01", ⟨"red"⟩), ("2025-01-02", ⟨"blue"⟩),
        ("2025-01-03", ⟨"green"⟩)] : DocState)
      "user-123" "2025-06-01T12:00:00.000Z"
      ⟨rfl, rfl, rfl, rfl⟩ rfl rfl (by decide)).1⟩

/-- C7.  Applying a remote change notification (year match, not an
echo, non-empty payload) from a steady state mutates Document State but
leaves the call log untouched, schedules no debounce timer and consumes
the remote-origin flag in the very next auto-push evaluation; a
subsequent timer expiry with no further local edits issues no
upsert. -/
theorem remote_applied_not_repushed (c : SyncConfig) (row : RealtimeRow)
    (now : String) (res : UpsertResult)
    (hb : BurstReady c) (hy : row.year = c.year)
    (he : echoMatch (getSyncTimestamp c) row.updated_at = false)
    (hd : row.data ≠ []) :
    (step c (.notify row)).calls = c.calls ∧
    (step c (.notify row)).timerPending = false ∧
    (step c (.notify row)).isFromRealtime = false ∧
    (step c (.notify row)).dateCells = row.data ∧
    (step (step c (.notify row)) (.timerFire now res)).calls = c.calls := by
  obtain ⟨he1, he2, he3, he4⟩ := hb
  have hd0 : row.data.length ≠ 0 := fun h0 => hd (List.length_eq_zero.mp h0)
  have hra := realtimeHandler_applies c row hy he hd0
  have happ : (realtimeHandler c row).2 = true := by rw [hra]
  have hstep : step c (.notify row)
      = autoPushEffectRun (realtimeHandler c row).1 := by
    simp only [step, happ, if_true]
  have hcon := autoPushEffectRun_consumes_flag { c with isFromRealtime := true, dateCells := row.data, syncTs := some row.updated_at } he1 he2 he3 rfl
  rw [hstep, hra]
  dsimp only
  rw [hcon]
  refine ⟨rfl, rfl, rfl, rfl, ?_⟩
  simp only [step]
  rfl

/-- C7, witness: a non-echo notification from another device is applied
but never re-pushed — no timer, no upsert after the quiet period. -/
theorem remote_applied_not_repushed_witness :
    BurstReady { initialConfig true (some "user-123") 2025
        [("2025-01-01", ⟨"blue"⟩)] none with initialPullDone := true } ∧
    echoMatch (getSyncTimestamp { initialConfig true (some "user-123") 2025
        [("2025-01-01", ⟨"blue"⟩)] none with initialPullDone := true })
      "2025-06-01T12:30:00+00:00" = false ∧
    ((step { initialConfig true (some "user-123") 2025
          [("2025-01-01", ⟨"blue"⟩)] none with initialPullDone := true }
        (.notify ⟨2025, [("2025-03-15", ⟨"green"⟩)], "2025-06-01T12:30:00+00:00"⟩)).calls
        = [] ∧
      (step { initialConfig true (some "user-123") 2025
          [("2025-01-01", ⟨"blue"⟩)] none with initialPullDone := true }
        (.notify ⟨2025, [("2025-03-15", ⟨"green"⟩)], "2025-06-01T12:30:00+00:00"⟩)).timerPending
        = false ∧
      (step { initialConfig true (some "user-123") 2025
          [("2025-01-01", ⟨"blue"⟩)] none with initialPullDone := true }
        (.notify ⟨2025, [("2025-03-15", ⟨"green"⟩)], "2025-06-01T12:30:00+00:00"⟩)).isFromRealtime
        = false ∧
      (step { initialConfig true (some "user-123") 2025
          [("2025-01-01", ⟨"blue"⟩)] none with initialPullDone := true }
        (.notify ⟨2025, [("2025-03-15", ⟨"green"⟩)], "2025-06-01T12:30:00+00:00"⟩)).dateCells
        = [("2025-03-15", ⟨"green"⟩)] ∧
      (step (step { initialConfig true (some "user-123") 2025
            [("2025-01-01", ⟨"blue"⟩)] none with initialPullDone := true }
          (.notify ⟨2025, [("2025-03-15", ⟨"green"⟩)], "2025-06-01T12:30:00+00:00"⟩))
        (.timerFire "2025-06-01T12:35:00.000Z" .ok)).calls = []) :=
  ⟨⟨rfl, rfl, rfl, rfl⟩, rfl,
    remote_applied_not_repushed
      { initialConfig true (some "user-123") 2025
          [("2025-01-01", ⟨"blue"⟩)] none with initialPullDone := true }
      ⟨2025, [("2025-03-15", ⟨"green"⟩)], "2025-06-01T12:30:00+00:00"⟩
      "2025-06-01T12:35:00.000Z" .ok
      ⟨rfl, rfl, rfl, rfl⟩ rfl rfl (by decide)⟩

/-- C8.  First part: from any configuration in which the initial pull
has not yet resolved (and no timer is pending), any burst of document
mutations issues no store call and schedules no timer.  Second part: a
step can only create a pending debounce timer when the initial pull had
completed before the step. -/
theorem pre_hydration_guard :
    (∀ (c : SyncConfig) (ms : List DocState), c.initialPullDone = false →
      c.timerPending = false →
      (steps c (ms.map Event.mutate)).calls = c.calls ∧
      (steps c (ms.map Event.mutate)).timerPending = false) ∧
    (∀ (c : SyncConfig) (e : Event), (step c e).timerPending = true →
      c.timerPending = true ∨ c.initialPullDone = true) :=
  ⟨fun c ms h ht => steps_mutate_not_hydrated c ms h ht,
   fun c e h => step_timer_activation c e h⟩

/-- C8, witness: a mutation on a freshly mounted, not yet hydrated
engine leaves the call log empty and schedules nothing. -/
theorem pre_hydration_guard_witness :
    (initialConfig true (some "user-123") 2025 [] none).initialPullDone = false ∧
    (initialConfig true (some "user-123") 2025 [] none).timerPending = false ∧
    (steps (initialConfig true (some "user-123") 2025 [] none)
        ([[("2025-01-01", ⟨"red"⟩)]].map Event.mutate)).calls
      = (initialConfig true (some "user-123") 2025 [] none).calls ∧
    (steps (initialConfig true (some "user-123") 2025 [] none)
        ([[("2025-01-01", ⟨"red"⟩)]].map Event.mutate)).timerPending = false :=
  ⟨rfl, rfl,
    (pre_hydration_guard.1 (initialConfig true (some "user-123") 2025 [] none)
      [[("2025-01-01", ⟨"red"⟩)]] rfl rfl).1,
    (pre_hydration_guard.1 (initialConfig true (some "user-123") 2025 [] none)
      [[("2025-01-01", ⟨"red"⟩)]] rfl rfl).2⟩

/-- C9, counterexample.  The claim says the phase is `disabled` whenever
no owner identity is available.  The `SyncStatus` union of the code has
no `disabled` value at all; on a fresh mount without identity the phase
is `"idle"`. -/
theorem no_identity_phase_not_disabled :
    (initialConfig true none 2025 [] none).syncStatus = "idle" ∧
    "disabled" ∉ syncStatusValues ∧
    (initialConfig true none 2025 [] none).syncStatus ≠ "disabled" := by
  decide

/-- C9, amended.  While no owner identity is available the engine keeps
the phase `"idle"` it mounted with (the code has no `disabled` status
value) and performs no I/O whatsoever: along every event sequence the
call log stays empty — no fetch, no upsert, no channel subscription. -/
theorem no_identity_no_io (sb : Bool) (year : Int) (cells : DocState)
    (storedTs : Option String) (es : List Event) :
    (steps (initialConfig sb none year cells storedTs) es).syncStatus = "idle" ∧
    (steps (initialConfig sb none year cells storedTs) es).calls = [] := by
  have h := steps_user_none (initialConfig sb none year cells storedTs) es rfl
  exact ⟨h.1, h.2.1⟩

/-- C10.  With no recorded Sync Timestamp (never synced, or the storage
read failed), the realtime handler applies every non-empty notification
for the active year — including the echo of a just-completed own push —
replacing Document State wholesale and persisting the notification
timestamp. -/
theorem no_sync_ts_applies_all_notifications (c : SyncConfig) (row : RealtimeRow)
    (h0 : getSyncTimestamp c = none) (hy : row.year = c.year) (hd : row.data ≠ []) :
    (step c (.notify row)).dateCells = row.data ∧
    (step c (.notify row)).syncTs = some row.updated_at := by
  have he : echoMatch (getSyncTimestamp c) row.updated_at = false := by
    rw [h0]
    rfl
  have hd0 : row.data.length ≠ 0 := fun h1 => hd (List.length_eq_zero.mp h1)
  have hra := realtimeHandler_applies c row hy he hd0
  have happ : (realtimeHandler c row).2 = true := by rw [hra]
  have hstep : step c (.notify row)
      = autoPushEffectRun (realtimeHandler c row).1 := by
    simp only [step, happ, if_true]
  rw [hstep]
  have hf := autoPushEffectRun_fields (realtimeHandler c row).1
  rw [hf.1, hf.2.1, hra]
  exact ⟨rfl, rfl⟩

/-- C10, witness: the echo of an own push — same timestamp instant as
the push, different suffix form — is applied wholesale because no Sync
Timestamp is recorded locally. -/
theorem no_sync_ts_applies_all_notifications_witness :
    getSyncTimestamp (initialConfig true (some "user-123") 2025
        [("2025-01-01", ⟨"red"⟩)] none) = none ∧
    (step (initialConfig true (some "user-123") 2025
          [("2025-01-01", ⟨"red"⟩)] none)
        (.notify ⟨2025, [("2025-01-01", ⟨"red"⟩)],
          "2025-06-01T12:00:00+00:00"⟩)).dateCells
      = [("2025-01-01", ⟨"red"⟩)] ∧
    (step (initialConfig true (some "user-123") 2025
          [("2025-01-01", ⟨"red"⟩)] none)
        (.notify ⟨2025, [("2025-01-01", ⟨"red"⟩)],
          "2025-06-01T12:00:00+00:00"⟩)).syncTs
      = some "2025-06-01T12:00:00+00:00" :=
  ⟨rfl,
    (no_sync_ts_applies_all_notifications
      (initialConfig true (some "user-123") 2025 [("2025-01-01", ⟨"red"⟩)] none)
      ⟨2025, [("2025-01-01", ⟨"red"⟩)], "2025-06-01T12:00:00+00:00"⟩
      rfl rfl (by decide)).1,
    (no_sync_ts_applies_all_notifications
      (initialConfig true (some "user-123") 2025 [("2025-01-01", ⟨"red"⟩)] none)
      ⟨2025, [("2025-01-01", ⟨"red"⟩)], "2025-06-01T12:00:00+00:00"⟩
      rfl rfl (by decide)).2⟩
